import Mathlib

/-!
Verification of the agent request/response bridge of the adk-sample
repository: the two A2A executors (`src/local_llm/agent_executor.py`,
`src/langchain_agent/agent_executor.py`), the restricted arithmetic
evaluator (`src/local_llm/tools.py`) and the demo translation tools
(`src/langchain_agent/agent.py`), shallowly embedded in Lean.

External collaborators (the language-model backends, the a2a transport,
the google.adk session service) are modelled as the spec directs: the
agent run is an input (a finished stream of events, or a raised
exception), the session service is an opaque key-value store keyed by
(application, user) with create/get semantics, and the event queue is the
list of events the executor puts on it, in order.
-/

namespace AdkSample

/-! ## Data model: inbound request (a2a RequestContext) -/

/-- One part of the inbound a2a message; `part.root.text` in the source. -/
structure MessagePart where
  text : String
deriving DecidableEq, Repr

/-- The inbound a2a message: a list of parts (`context.message.parts`). -/
structure Message where
  parts : List MessagePart
deriving DecidableEq, Repr

/-- The a2a `RequestContext` fields the executors read: `task_id`,
`context_id` (both optional strings) and the optional inbound message. -/
structure RequestContext where
  task_id : Option String
  context_id : Option String
  message : Option Message
deriving DecidableEq, Repr

/-- Python truthiness of an optional string: `None` and the empty string
are falsy. `pyStrOr o d` is Python's `o or d`. -/
def pyStrOr (o : Option String) (d : String) : String :=
  match o with
  | none => d
  | some s => if s = "" then d else s

/-! ## Data model: emitted events (a2a types) -/

inductive TaskState where
  | working
  | completed
  | canceled
deriving DecidableEq, Repr

/-- `new_agent_text_message(text, context_id, task_id)`: the agent message
attached to a terminal status. -/
structure AgentMessage where
  text : String
  context_id : Option String
  task_id : Option String
deriving DecidableEq, Repr

/-- `TaskStatus(state=..., message=...)`. -/
structure TaskStatus where
  state : TaskState
  message : Option AgentMessage
deriving DecidableEq, Repr

/-- `TaskStatusUpdateEvent(task_id=..., context_id=..., status=..., final=...)`. -/
structure TaskStatusUpdateEvent where
  task_id : Option String
  context_id : Option String
  status : TaskStatus
  final : Bool
deriving DecidableEq, Repr

/-- `Task(id=..., context_id=..., status=...)`. -/
structure TaskEvent where
  id : Option String
  context_id : Option String
  status : TaskStatus
deriving DecidableEq, Repr

/-- An event put on the a2a `EventQueue` by an executor. -/
inductive Event where
  | statusUpdate (e : TaskStatusUpdateEvent)
  | task (t : TaskEvent)
deriving DecidableEq, Repr

/-- Whether an emitted event is terminal: a `Task` event carrying a
`completed` or `canceled` state. -/
def Event.isTerminal : Event → Bool
  | .statusUpdate _ => false
  | .task t => t.status.state = TaskState.completed ∨ t.status.state = TaskState.canceled

/-! ## Data model: the stream produced by the underlying agent run -/

/-- One part of streamed model output (google.genai `types.Part`): its
`text` attribute, absent or a string. -/
structure GenPart where
  text : Option String
deriving DecidableEq, Repr

/-- Streamed model output content (`event.content`), a list of parts. -/
structure GenContent where
  parts : List GenPart
deriving DecidableEq, Repr

/-- One event yielded by `runner.run_async`: its optional `content`. -/
structure AgentEvent where
  content : Option GenContent
deriving DecidableEq, Repr

/-- Outcome of the external agent run driven by the executor: either the
finished stream of events, or an exception (carrying its string form). -/
inductive RunOutcome where
  | events (evs : List AgentEvent)
  | raises (err : String)
deriving DecidableEq, Repr

/-! ## Session storage

Modelled from the spec: the google.adk `InMemorySessionService` held by
`LocalLLMAgentExecutor` is not part of this repository; per the spec it is
"an opaque key-value store keyed by (application, user) with create/get
semantics".  Session ids, generated by the external service on create, are
modelled by a counter. -/

structure Session where
  id : String
  app_name : String
  user_id : String
deriving DecidableEq, Repr

/-- The in-memory session store: an association list keyed by
`(app_name, user_id)`, plus the id-generation counter. -/
structure SessionStore where
  sessions : List ((String × String) × Session)
  next_id : Nat
deriving DecidableEq, Repr

/-- Modelled from the spec: `get_session(app_name=..., user_id=...)` of the
external session service — lookup in the key-value store. -/
def SessionStore.get_session (st : SessionStore) (app user : String) :
    Option Session :=
  st.sessions.lookup (app, user)

/-- Modelled from the spec: `create_session(app_name=..., user_id=...)` of
the external session service — insert a fresh session for the key and
return it. -/
def SessionStore.create_session (st : SessionStore) (app user : String) :
    Session × SessionStore :=
  let s : Session := ⟨"session-" ++ toString st.next_id, app, user⟩
  (s, ⟨((app, user), s) :: st.sessions, st.next_id + 1⟩)

/-! ## LocalLLMAgentExecutor (src/local_llm/agent_executor.py) -/

namespace LocalLLM

/-- The arguments `execute` passes to `runner.run_async`: the session id,
the user id, and the text of the new user message. -/
structure RunCall where
  session_id : String
  user_id : String
  new_message : String
deriving DecidableEq, Repr

/-- Everything observable about one call to
`LocalLLMAgentExecutor.execute`: the events put on the queue in order, the
session store afterwards, what `get_session` returned, the calls made to
`runner.run_async`, and the exception that escaped `execute`, if any. -/
structure ExecResult where
  emitted : List Event
  store : SessionStore
  session_found : Option (Option Session)
  run_calls : List RunCall
  raised : Option String
deriving DecidableEq, Repr

/-- The body of the `async for` loop of `execute`: for each part of an
event's content, `if hasattr(part, "text") and part.text:
response_text += part.text`. -/
def addPart (acc : String) (p : GenPart) : String :=
  match p.text with
  | none => acc
  | some t => if t = "" then acc else acc ++ t

/-- One iteration of the `async for` loop: skip events without truthy
`content`, else fold the parts. -/
def addEvent (acc : String) (e : AgentEvent) : String :=
  match e.content with
  | none => acc
  | some c => c.parts.foldl addPart acc

/-- The `response_text` accumulated by `execute` over the agent stream. -/
def responseText (evs : List AgentEvent) : String :=
  evs.foldl addEvent ""

/-- `LocalLLMAgentExecutor.execute`, embedded over the request context,
the session store and the outcome of the external agent run. -/
def execute (ctx : RequestContext) (store : SessionStore)
    (run : RunOutcome) : ExecResult :=
  match ctx.message with
  | none => ⟨[], store, none, [], none⟩
  | some m =>
    match m.parts with
    | [] => ⟨[], store, none, [], none⟩
    | p :: _ =>
      let user_message := p.text
      let working : Event := .statusUpdate
        ⟨ctx.task_id, ctx.context_id, ⟨TaskState.working, none⟩, false⟩
      let user_id := pyStrOr ctx.context_id "default-user"
      let found := store.get_session "local-llm-agent" user_id
      let (session, store') :=
        match found with
        | some s => (s, store)
        | none => store.create_session "local-llm-agent" user_id
      let call : RunCall := ⟨session.id, session.user_id, user_message⟩
      match run with
      | .raises e =>
        ⟨[working], store', some found, [call], some e⟩
      | .events evs =>
        let text := responseText evs
        let completed : Event := .task
          ⟨ctx.task_id, ctx.context_id,
           ⟨TaskState.completed,
            some ⟨(if text = "" then "応答を生成できませんでした。" else text),
                  ctx.context_id, ctx.task_id⟩⟩⟩
        ⟨[working, completed], store', some found, [call], none⟩

/-- `LocalLLMAgentExecutor.cancel`: put a single canceled `Task` on the
queue; the session store is untouched. -/
def cancel (ctx : RequestContext) (store : SessionStore) :
    List Event × SessionStore :=
  ([.task ⟨ctx.task_id, ctx.context_id, ⟨TaskState.canceled, none⟩⟩], store)

end LocalLLM

/-! ## LangChainA2AExecutor (src/langchain_agent/agent_executor.py) -/

namespace LangChainA2A

/-- Outcome of `await invoke_agent(user_message)`: the response string, or
an exception (carrying its string form). -/
inductive InvokeOutcome where
  | ok (resp : String)
  | raises (err : String)
deriving DecidableEq, Repr

/-- `LangChainA2AExecutor.execute`, embedded over the request context and
the outcome of `invoke_agent`; the executor is stateless, so the result is
just the list of events put on the queue. -/
def execute (ctx : RequestContext) (outcome : InvokeOutcome) : List Event :=
  match ctx.message with
  | none => []
  | some m =>
    match m.parts with
    | [] => []
    | _ :: _ =>
      let working : Event := .statusUpdate
        ⟨ctx.task_id, ctx.context_id, ⟨TaskState.working, none⟩, false⟩
      let response_text :=
        match outcome with
        | .ok r => r
        | .raises e => "エラーが発生しました: " ++ e
      [working,
       .task ⟨ctx.task_id, ctx.context_id,
              ⟨TaskState.completed,
               some ⟨response_text, ctx.context_id, ctx.task_id⟩⟩⟩]

/-- `LangChainA2AExecutor.cancel`: put a single canceled `Task` on the
queue. -/
def cancel (ctx : RequestContext) : List Event :=
  [.task ⟨ctx.task_id, ctx.context_id, ⟨TaskState.canceled, none⟩⟩]

end LangChainA2A

/-! ## calculate (src/local_llm/tools.py)

The expression is evaluated by Python's `eval` under a restricted
environment; the interpreter itself is external, so its outcome — a value
(rendered as Python renders it into the f-string), or one of the exception
classes the source distinguishes — is the input of the embedding, and
`calculate` is the source's try/except dispatch over it. -/

/-- Outcome of `eval(expression, ...)` in `calculate`. -/
inductive PyEvalOutcome where
  | ok (value : String)
  | zeroDivisionError
  | syntaxError
  | otherError (msg : String)
deriving DecidableEq, Repr

/-- `calculate(expression)` of src/local_llm/tools.py. -/
def calculate (expression : String) (outcome : PyEvalOutcome) : String :=
  match outcome with
  | .ok v => expression ++ " = " ++ v
  | .zeroDivisionError => "エラー: ゼロ除算はできません"
  | .syntaxError => "エラー: 数式の構文が正しくありません: " ++ expression
  | .otherError e => "計算エラー: " ++ e

/-! ## Translation tools (src/langchain_agent/agent.py) -/

/-- The `translations` dictionary of `translate_to_english`. -/
def jaToEn : List (String × String) :=
  [("こんにちは", "Hello"), ("ありがとう", "Thank you"), ("さようなら", "Goodbye")]

/-- The `translations` dictionary of `translate_to_japanese`. -/
def enToJa : List (String × String) :=
  [("Hello", "こんにちは"), ("Thank you", "ありがとう"), ("Goodbye", "さようなら")]

/-- `translate_to_english(text)`. -/
def translate_to_english (text : String) : String :=
  match jaToEn.lookup text with
  | some t => t
  | none => "[Translation of: " ++ text ++ "]"

/-- `translate_to_japanese(text)`. -/
def translate_to_japanese (text : String) : String :=
  match enToJa.lookup text with
  | some t => t
  | none => "[翻訳: " ++ text ++ "]"

/-! ## Spec-side view of the aggregation (for the refinement claim)

These definitions follow the words of the spec/claim — "the concatenation,
in event order, of every non-empty text part of every event that has
content" — to be compared with the source-side `LocalLLM.responseText`. -/

/-- The text of a part when it is present and non-empty. -/
def textOfPart (p : GenPart) : Option String :=
  match p.text with
  | none => none
  | some t => if t = "" then none else some t

/-- Concatenation of a list of strings, in order. -/
def concatAll : List String → String
  | [] => ""
  | s :: rest => s ++ concatAll rest

/-- The non-empty texts contributed by one agent event. -/
def eventTexts (e : AgentEvent) : List String :=
  match e.content with
  | none => []
  | some c => c.parts.filterMap textOfPart

/-- Every non-empty text part of every event that has content, in event
order. -/
def nonEmptyTexts (evs : List AgentEvent) : List String :=
  (evs.filterMap AgentEvent.content).flatMap fun c => c.parts.filterMap textOfPart

/-! ## Concrete example inputs shared by witnesses and counterexamples -/

/-- A request with one text part and distinct task and context ids. -/
def exCtx : RequestContext := ⟨some "task-1", some "ctx-1", some ⟨[⟨"hi"⟩]⟩⟩

/-- A request whose `context_id` is present but the empty string. -/
def exCtxEmptyCid : RequestContext := ⟨some "task-1", some "", some ⟨[⟨"hi"⟩]⟩⟩

/-- The fresh session store the executor starts with. -/
def emptyStore : SessionStore := ⟨[], 0⟩

/-! ## Helper lemmas: aggregation refinement -/

theorem addPart_eq (acc : String) (p : GenPart) :
    LocalLLM.addPart acc p = acc ++ concatAll (Option.toList (textOfPart p)) := by
  unfold LocalLLM.addPart textOfPart
  cases p.text with
  | none => simp [concatAll]
  | some t =>
    by_cases h : t = "" <;> simp [h, concatAll, String.append_empty]

theorem foldl_addPart (parts : List GenPart) (acc : String) :
    parts.foldl LocalLLM.addPart acc = acc ++ concatAll (parts.filterMap textOfPart) := by
  induction parts generalizing acc with
  | nil => simp [concatAll]
  | cons p rest ih =>
    rw [List.foldl_cons, ih, addPart_eq]
    cases h : textOfPart p with
    | none => simp [h, List.filterMap_cons, concatAll]
    | some t => simp [h, List.filterMap_cons, concatAll, String.append_assoc]

theorem addEvent_eq (acc : String) (e : AgentEvent) :
    LocalLLM.addEvent acc e = acc ++ concatAll (eventTexts e) := by
  unfold LocalLLM.addEvent eventTexts
  cases h : e.content with
  | none => simp [concatAll]
  | some c => simp [foldl_addPart, concatAll]

theorem concatAll_append (l₁ l₂ : List String) :
    concatAll (l₁ ++ l₂) = concatAll l₁ ++ concatAll l₂ := by
  induction l₁ with
  | nil => simp [concatAll]
  | cons s rest ih => simp [concatAll, ih, String.append_assoc]

theorem nonEmptyTexts_cons (e : AgentEvent) (rest : List AgentEvent) :
    nonEmptyTexts (e :: rest) = eventTexts e ++ nonEmptyTexts rest := by
  unfold nonEmptyTexts eventTexts
  cases h : e.content <;> simp [List.filterMap_cons, h]

theorem foldl_addEvent (evs : List AgentEvent) (acc : String) :
    evs.foldl LocalLLM.addEvent acc = acc ++ concatAll (nonEmptyTexts evs) := by
  induction evs generalizing acc with
  | nil => simp [nonEmptyTexts, concatAll]
  | cons e rest ih =>
    rw [List.foldl_cons, ih, addEvent_eq, nonEmptyTexts_cons, concatAll_append,
      String.append_assoc]

/-- The `response_text` accumulated by the source's nested loops is the
concatenation, in event order, of every non-empty text part of every
event that has content. -/
theorem responseText_eq (evs : List AgentEvent) :
    LocalLLM.responseText evs = concatAll (nonEmptyTexts evs) := by
  rw [LocalLLM.responseText, foldl_addEvent]
  exact String.empty_append _

/-! ## Helper lemmas: executor interaction with the session store -/

theorem lookup_cons_ne {α β : Type} [BEq α] [LawfulBEq α] (k k' : α) (v : β)
    (l : List (α × β)) (h : k' ≠ k) :
    List.lookup k' ((k, v) :: l) = List.lookup k' l := by
  have hb : (k' == k) = false := beq_eq_false_iff_ne.mpr h
  simp [List.lookup, hb]

/-- What `execute` observed from `get_session` when the request has a
nonempty message: the store's entry for key
`("local-llm-agent", context_id or "default-user")`. -/
theorem execute_session_found (ctx : RequestContext) (store : SessionStore)
    (run : RunOutcome) (m : Message) (p : MessagePart) (rest : List MessagePart)
    (hm : ctx.message = some m) (hp : m.parts = p :: rest) :
    (LocalLLM.execute ctx store run).session_found =
      some (store.get_session "local-llm-agent" (pyStrOr ctx.context_id "default-user")) := by
  obtain ⟨tid, cid, msg⟩ := ctx
  obtain ⟨parts⟩ := m
  simp only at hm hp
  subst hm
  subst hp
  cases hfound : SessionStore.get_session store "local-llm-agent" (pyStrOr cid "default-user") <;>
    cases run <;> simp [LocalLLM.execute, hfound]

/-- The events `execute` emits do not depend on the session store. -/
theorem execute_emitted_indep (ctx : RequestContext) (st₁ st₂ : SessionStore)
    (run : RunOutcome) :
    (LocalLLM.execute ctx st₁ run).emitted = (LocalLLM.execute ctx st₂ run).emitted := by
  obtain ⟨tid, cid, msg⟩ := ctx
  cases msg with
  | none => rfl
  | some m =>
    obtain ⟨parts⟩ := m
    cases parts with
    | nil => rfl
    | cons p rest =>
      cases hf₁ : SessionStore.get_session st₁ "local-llm-agent" (pyStrOr cid "default-user") <;>
        cases hf₂ : SessionStore.get_session st₂ "local-llm-agent" (pyStrOr cid "default-user") <;>
        cases run <;> simp [LocalLLM.execute, hf₁, hf₂]

/-- After `execute`, the store's entries for keys with a different user id
are unchanged. -/
theorem execute_store_get_ne (ctx : RequestContext) (store : SessionStore)
    (run : RunOutcome) (u : String)
    (h : u ≠ pyStrOr ctx.context_id "default-user") :
    (LocalLLM.execute ctx store run).store.get_session "local-llm-agent" u =
      store.get_session "local-llm-agent" u := by
  obtain ⟨tid, cid, msg⟩ := ctx
  simp only at h
  cases msg with
  | none => rfl
  | some m =>
    obtain ⟨parts⟩ := m
    cases parts with
    | nil => rfl
    | cons p rest =>
      cases hf : SessionStore.get_session store "local-llm-agent" (pyStrOr cid "default-user") with
      | some s => cases run <;> simp [LocalLLM.execute, hf]
      | none =>
        have hk : ("local-llm-agent", u) ≠
            (("local-llm-agent", pyStrOr cid "default-user") : String × String) := by
          intro hcontra
          exact h (congrArg Prod.snd hcontra)
        simp only [SessionStore.get_session] at hf
        cases run <;>
          simp [LocalLLM.execute, hf, SessionStore.get_session,
            SessionStore.create_session, lookup_cons_ne _ _ _ _ hk]

/-- A request with one text part whose context id is "u". -/
def exCtxU : RequestContext := ⟨some "task-1", some "u", some ⟨[⟨"hi"⟩]⟩⟩

/-- An agent stream used by witnesses: one event with two parts ("Hel" and
an absent text), one event without content, one event with an empty and a
non-empty ("lo") part. -/
def exEvs : List AgentEvent :=
  [⟨some ⟨[⟨some "Hel"⟩, ⟨none⟩]⟩⟩, ⟨none⟩, ⟨some ⟨[⟨some ""⟩, ⟨some "lo"⟩]⟩⟩]

/-! ## Claims -/

/-- C1: for every request whose message has at least one part, `execute`
(of either executor) first puts a non-terminal `working`
`TaskStatusUpdateEvent` (final=False) carrying the request's task and
context ids, then, once the agent run has finished, exactly one terminal
`Task` event in state `completed`; no terminal event precedes the working
event. -/
theorem working_precedes_single_completed
    (ctx : RequestContext) (store : SessionStore) (evs : List AgentEvent)
    (out : LangChainA2A.InvokeOutcome) (m : Message) (p : MessagePart)
    (rest : List MessagePart) (hm : ctx.message = some m) (hp : m.parts = p :: rest) :
    ∃ t u : TaskEvent,
      (LocalLLM.execute ctx store (.events evs)).emitted =
        [.statusUpdate ⟨ctx.task_id, ctx.context_id, ⟨TaskState.working, none⟩, false⟩,
         .task t] ∧
      t.id = ctx.task_id ∧ t.context_id = ctx.context_id ∧
      t.status.state = TaskState.completed ∧
      ((LocalLLM.execute ctx store (.events evs)).emitted.filter Event.isTerminal) =
        [.task t] ∧
      LangChainA2A.execute ctx out =
        [.statusUpdate ⟨ctx.task_id, ctx.context_id, ⟨TaskState.working, none⟩, false⟩,
         .task u] ∧
      u.id = ctx.task_id ∧ u.context_id = ctx.context_id ∧
      u.status.state = TaskState.completed ∧
      ((LangChainA2A.execute ctx out).filter Event.isTerminal) = [.task u] := by
  obtain ⟨tid, cid, msg⟩ := ctx
  obtain ⟨parts⟩ := m
  simp only at hm hp
  subst hm
  subst hp
  have hlocal : (LocalLLM.execute ⟨tid, cid, some ⟨p :: rest⟩⟩ store (.events evs)).emitted =
      [.statusUpdate ⟨tid, cid, ⟨TaskState.working, none⟩, false⟩,
       .task ⟨tid, cid, ⟨TaskState.completed,
         some ⟨(if LocalLLM.responseText evs = "" then "応答を生成できませんでした。"
                else LocalLLM.responseText evs), cid, tid⟩⟩⟩] := by
    cases hfound : SessionStore.get_session store "local-llm-agent"
        (pyStrOr cid "default-user") <;>
      simp [LocalLLM.execute, hfound]
  have hlang : LangChainA2A.execute ⟨tid, cid, some ⟨p :: rest⟩⟩ out =
      [.statusUpdate ⟨tid, cid, ⟨TaskState.working, none⟩, false⟩,
       .task ⟨tid, cid, ⟨TaskState.completed,
         some ⟨(match out with
                | .ok r => r
                | .raises e => "エラーが発生しました: " ++ e), cid, tid⟩⟩⟩] := by
    cases out <;> simp [LangChainA2A.execute]
  refine ⟨_, _, hlocal, rfl, rfl, rfl, ?_, hlang, rfl, rfl, rfl, ?_⟩
  · rw [hlocal]
    simp [Event.isTerminal, List.filter]
  · rw [hlang]
    simp [Event.isTerminal, List.filter]

/-- C1 witness: the property at a concrete request, store, stream and
invoke outcome. -/
theorem working_precedes_single_completed_witness :
    ∃ t u : TaskEvent,
      (LocalLLM.execute exCtx emptyStore (.events exEvs)).emitted =
        [.statusUpdate ⟨exCtx.task_id, exCtx.context_id, ⟨TaskState.working, none⟩, false⟩,
         .task t] ∧
      t.id = exCtx.task_id ∧ t.context_id = exCtx.context_id ∧
      t.status.state = TaskState.completed ∧
      ((LocalLLM.execute exCtx emptyStore (.events exEvs)).emitted.filter Event.isTerminal) =
        [.task t] ∧
      LangChainA2A.execute exCtx (.ok "fine") =
        [.statusUpdate ⟨exCtx.task_id, exCtx.context_id, ⟨TaskState.working, none⟩, false⟩,
         .task u] ∧
      u.id = exCtx.task_id ∧ u.context_id = exCtx.context_id ∧
      u.status.state = TaskState.completed ∧
      ((LangChainA2A.execute exCtx (.ok "fine")).filter Event.isTerminal) = [.task u] :=
  working_precedes_single_completed exCtx emptyStore exEvs (.ok "fine")
    ⟨[⟨"hi"⟩]⟩ ⟨"hi"⟩ [] rfl rfl

/-- C2: the text of the final `completed` message of
`LocalLLMAgentExecutor.execute` is the concatenation, in event order, of
every non-empty text part of every event that has content; if that
concatenation is empty, it is the fallback string
"応答を生成できませんでした。". -/
theorem completed_text_aggregates_stream
    (ctx : RequestContext) (store : SessionStore) (evs : List AgentEvent)
    (m : Message) (p : MessagePart) (rest : List MessagePart)
    (hm : ctx.message = some m) (hp : m.parts = p :: rest) :
    (LocalLLM.execute ctx store (.events evs)).emitted =
      [.statusUpdate ⟨ctx.task_id, ctx.context_id, ⟨TaskState.working, none⟩, false⟩,
       .task ⟨ctx.task_id, ctx.context_id,
         ⟨TaskState.completed,
          some ⟨(if concatAll (nonEmptyTexts evs) = ""
                 then "応答を生成できませんでした。"
                 else concatAll (nonEmptyTexts evs)),
                ctx.context_id, ctx.task_id⟩⟩⟩] := by
  obtain ⟨tid, cid, msg⟩ := ctx
  obtain ⟨parts⟩ := m
  simp only at hm hp
  subst hm
  subst hp
  cases hfound : SessionStore.get_session store "local-llm-agent"
      (pyStrOr cid "default-user") <;>
    simp [LocalLLM.execute, hfound, responseText_eq]

/-- C2 witness: at a concrete stream the completed message carries
"Hello" (concatenating "Hel" and "lo" while skipping absent content,
absent texts and empty texts); an all-empty stream yields the fallback. -/
theorem completed_text_aggregates_stream_witness :
    ((LocalLLM.execute exCtx emptyStore (.events exEvs)).emitted =
      [.statusUpdate ⟨exCtx.task_id, exCtx.context_id, ⟨TaskState.working, none⟩, false⟩,
       .task ⟨exCtx.task_id, exCtx.context_id,
         ⟨TaskState.completed,
          some ⟨(if concatAll (nonEmptyTexts exEvs) = ""
                 then "応答を生成できませんでした。"
                 else concatAll (nonEmptyTexts exEvs)),
                exCtx.context_id, exCtx.task_id⟩⟩⟩]) ∧
    concatAll (nonEmptyTexts exEvs) = "Hello" ∧
    (LocalLLM.execute exCtx emptyStore (.events [⟨none⟩])).emitted =
      [.statusUpdate ⟨exCtx.task_id, exCtx.context_id, ⟨TaskState.working, none⟩, false⟩,
       .task ⟨exCtx.task_id, exCtx.context_id,
         ⟨TaskState.completed,
          some ⟨"応答を生成できませんでした。", exCtx.context_id, exCtx.task_id⟩⟩⟩] := by
  refine ⟨completed_text_aggregates_stream exCtx emptyStore exEvs
    ⟨[⟨"hi"⟩]⟩ ⟨"hi"⟩ [] rfl rfl, by decide, ?_⟩
  have h := completed_text_aggregates_stream exCtx emptyStore [⟨none⟩]
    ⟨[⟨"hi"⟩]⟩ ⟨"hi"⟩ [] rfl rfl
  simpa using h

/-- C3: `calculate` maps a division by zero to
"エラー: ゼロ除算はできません", a syntactically malformed expression to
"エラー: 数式の構文が正しくありません: " followed by the expression, and a
successful evaluation to "expression = result". -/
theorem calculate_dispatch (expression : String) (outcome : PyEvalOutcome) :
    (outcome = .zeroDivisionError →
      calculate expression outcome = "エラー: ゼロ除算はできません") ∧
    (outcome = .syntaxError →
      calculate expression outcome =
        "エラー: 数式の構文が正しくありません: " ++ expression) ∧
    (∀ v, outcome = .ok v →
      calculate expression outcome = expression ++ " = " ++ v) := by
  refine ⟨?_, ?_, ?_⟩
  · rintro rfl
    rfl
  · rintro rfl
    rfl
  · rintro v rfl
    rfl

/-- C3 witness: the dispatch at concrete expressions and outcomes. -/
theorem calculate_dispatch_witness :
    calculate "1/0" .zeroDivisionError = "エラー: ゼロ除算はできません" ∧
    calculate "1 +" .syntaxError = "エラー: 数式の構文が正しくありません: 1 +" ∧
    calculate "1 + 2 * 3" (.ok "7") = "1 + 2 * 3 = 7" :=
  ⟨(calculate_dispatch "1/0" .zeroDivisionError).1 rfl,
   (calculate_dispatch "1 +" .syntaxError).2.1 rfl,
   (calculate_dispatch "1 + 2 * 3" (.ok "7")).2.2 "7" rfl⟩

/-- C4 counterexample: the claim fails for `LocalLLMAgentExecutor`: on a
request whose agent run raises "boom", the exception escapes `execute`
(`raised = some "boom"`) and no completed message stringifying it is
emitted — only the working event is. -/
theorem local_exception_escapes :
    (LocalLLM.execute exCtx emptyStore (.raises "boom")).raised = some "boom" ∧
    (LocalLLM.execute exCtx emptyStore (.raises "boom")).emitted =
      [.statusUpdate ⟨some "task-1", some "ctx-1", ⟨TaskState.working, none⟩, false⟩] := by
  constructor <;> rfl

/-- C4 amended: only `LangChainA2AExecutor` catches an exception from the
agent run and stringifies it into the completed message text
("エラーが発生しました: " followed by the exception);
`LocalLLMAgentExecutor` has no handler, so the exception propagates out of
its `execute` and no terminal event is emitted. -/
theorem exception_handling_split
    (ctx : RequestContext) (store : SessionStore) (err : String)
    (m : Message) (p : MessagePart) (rest : List MessagePart)
    (hm : ctx.message = some m) (hp : m.parts = p :: rest) :
    LangChainA2A.execute ctx (.raises err) =
      [.statusUpdate ⟨ctx.task_id, ctx.context_id, ⟨TaskState.working, none⟩, false⟩,
       .task ⟨ctx.task_id, ctx.context_id,
         ⟨TaskState.completed,
          some ⟨"エラーが発生しました: " ++ err, ctx.context_id, ctx.task_id⟩⟩⟩] ∧
    (LocalLLM.execute ctx store (.raises err)).raised = some err ∧
    (LocalLLM.execute ctx store (.raises err)).emitted =
      [.statusUpdate ⟨ctx.task_id, ctx.context_id, ⟨TaskState.working, none⟩, false⟩] := by
  obtain ⟨tid, cid, msg⟩ := ctx
  obtain ⟨parts⟩ := m
  simp only at hm hp
  subst hm
  subst hp
  refine ⟨by simp [LangChainA2A.execute], ?_, ?_⟩ <;>
    cases hfound : SessionStore.get_session store "local-llm-agent"
      (pyStrOr cid "default-user") <;>
    simp [LocalLLM.execute, hfound]

/-- C4-amended witness: the split behaviour at a concrete request whose
run raises "boom". -/
theorem exception_handling_split_witness :
    LangChainA2A.execute exCtx (.raises "boom") =
      [.statusUpdate ⟨exCtx.task_id, exCtx.context_id, ⟨TaskState.working, none⟩, false⟩,
       .task ⟨exCtx.task_id, exCtx.context_id,
         ⟨TaskState.completed,
          some ⟨"エラーが発生しました: " ++ "boom", exCtx.context_id, exCtx.task_id⟩⟩⟩] ∧
    (LocalLLM.execute exCtx emptyStore (.raises "boom")).raised = some "boom" ∧
    (LocalLLM.execute exCtx emptyStore (.raises "boom")).emitted =
      [.statusUpdate ⟨exCtx.task_id, exCtx.context_id, ⟨TaskState.working, none⟩, false⟩] :=
  exception_handling_split exCtx emptyStore "boom" ⟨[⟨"hi"⟩]⟩ ⟨"hi"⟩ [] rfl rfl

/-- C5: `cancel` of either executor emits exactly one event — a `Task` in
state `canceled` whose id and context id are the request's task and
context ids forwarded verbatim, with no message attached — and leaves the
session store untouched. -/
theorem cancel_forwards_verbatim (ctx : RequestContext) (store : SessionStore) :
    LocalLLM.cancel ctx store =
      ([.task ⟨ctx.task_id, ctx.context_id, ⟨TaskState.canceled, none⟩⟩], store) ∧
    LangChainA2A.cancel ctx =
      [.task ⟨ctx.task_id, ctx.context_id, ⟨TaskState.canceled, none⟩⟩] :=
  ⟨rfl, rfl⟩

/-- C6 counterexample: the claim fails when `context_id` is present but
empty: Python's `context.context_id or "default-user"` treats the empty
string as falsy, so the executor keys the session by "default-user", not
by the (present) context id "". -/
theorem session_user_id_empty_string :
    exCtxEmptyCid.context_id = some "" ∧
    (LocalLLM.execute exCtxEmptyCid emptyStore (.events [])).run_calls =
      [⟨"session-0", "default-user", "hi"⟩] ∧
    (LocalLLM.execute exCtxEmptyCid emptyStore (.events [])).store.get_session
      "local-llm-agent" "" = none ∧
    (LocalLLM.execute exCtxEmptyCid emptyStore (.events [])).store =
      ⟨[(("local-llm-agent", "default-user"),
         ⟨"session-0", "local-llm-agent", "default-user"⟩)], 1⟩ := by
  refine ⟨rfl, rfl, ?_, rfl⟩
  decide

/-- C6 amended: for every request with a nonempty message, `execute` gets
the session for app "local-llm-agent" and user id equal to the request's
context id — or "default-user" when the context id is absent or empty —
creates one exactly when none exists (adding exactly that entry to the
store), and runs the agent under that session's id and user id. -/
theorem session_get_or_create
    (ctx : RequestContext) (store : SessionStore) (run : RunOutcome)
    (m : Message) (p : MessagePart) (rest : List MessagePart)
    (hm : ctx.message = some m) (hp : m.parts = p :: rest) :
    (LocalLLM.execute ctx store run).session_found =
      some (store.get_session "local-llm-agent" (pyStrOr ctx.context_id "default-user")) ∧
    (∀ s, store.get_session "local-llm-agent" (pyStrOr ctx.context_id "default-user") =
        some s →
      (LocalLLM.execute ctx store run).store = store ∧
      (LocalLLM.execute ctx store run).run_calls = [⟨s.id, s.user_id, p.text⟩]) ∧
    (store.get_session "local-llm-agent" (pyStrOr ctx.context_id "default-user") = none →
      ∃ s : Session,
        s.app_name = "local-llm-agent" ∧
        s.user_id = pyStrOr ctx.context_id "default-user" ∧
        (LocalLLM.execute ctx store run).store.sessions =
          (("local-llm-agent", pyStrOr ctx.context_id "default-user"), s) ::
            store.sessions ∧
        (LocalLLM.execute ctx store run).store.get_session "local-llm-agent"
          (pyStrOr ctx.context_id "default-user") = some s ∧
        (LocalLLM.execute ctx store run).run_calls = [⟨s.id, s.user_id, p.text⟩]) := by
  obtain ⟨tid, cid, msg⟩ := ctx
  obtain ⟨parts⟩ := m
  simp only at hm hp
  subst hm
  subst hp
  refine ⟨execute_session_found ⟨tid, cid, some ⟨p :: rest⟩⟩ store run
    ⟨p :: rest⟩ p rest rfl rfl, ?_, ?_⟩
  · intro s hs
    cases run <;> simp [LocalLLM.execute, hs]
  · intro hnone
    refine ⟨⟨"session-" ++ toString store.next_id, "local-llm-agent",
      pyStrOr cid "default-user"⟩, rfl, rfl, ?_, ?_, ?_⟩ <;>
      · have hl := hnone
        simp only [SessionStore.get_session] at hl
        cases run <;>
          simp [LocalLLM.execute, hnone, hl, SessionStore.get_session,
            SessionStore.create_session]

/-- C6-amended witness: on an empty store with context id "u", the
executor finds no session, creates one keyed
("local-llm-agent", "u"), and runs the agent under it. -/
theorem session_get_or_create_witness :
    (LocalLLM.execute ⟨some "task-1", some "u", some ⟨[⟨"hi"⟩]⟩⟩ emptyStore
        (.events [])).session_found =
      some (emptyStore.get_session "local-llm-agent"
        (pyStrOr (some "u") "default-user")) ∧
    (∀ s, emptyStore.get_session "local-llm-agent" (pyStrOr (some "u") "default-user") =
        some s →
      (LocalLLM.execute ⟨some "task-1", some "u", some ⟨[⟨"hi"⟩]⟩⟩ emptyStore
          (.events [])).store = emptyStore ∧
      (LocalLLM.execute ⟨some "task-1", some "u", some ⟨[⟨"hi"⟩]⟩⟩ emptyStore
          (.events [])).run_calls = [⟨s.id, s.user_id, "hi"⟩]) ∧
    (emptyStore.get_session "local-llm-agent" (pyStrOr (some "u") "default-user") =
        none →
      ∃ s : Session,
        s.app_name = "local-llm-agent" ∧
        s.user_id = pyStrOr (some "u") "default-user" ∧
        (LocalLLM.execute ⟨some "task-1", some "u", some ⟨[⟨"hi"⟩]⟩⟩ emptyStore
            (.events [])).store.sessions =
          (("local-llm-agent", pyStrOr (some "u") "default-user"), s) ::
            emptyStore.sessions ∧
        (LocalLLM.execute ⟨some "task-1", some "u", some ⟨[⟨"hi"⟩]⟩⟩ emptyStore
            (.events [])).store.get_session "local-llm-agent"
          (pyStrOr (some "u") "default-user") = some s ∧
        (LocalLLM.execute ⟨some "task-1", some "u", some ⟨[⟨"hi"⟩]⟩⟩ emptyStore
            (.events [])).run_calls = [⟨s.id, s.user_id, "hi"⟩]) :=
  session_get_or_create ⟨some "task-1", some "u", some ⟨[⟨"hi"⟩]⟩⟩ emptyStore
    (.events []) ⟨[⟨"hi"⟩]⟩ ⟨"hi"⟩ [] rfl rfl

/-- C7 counterexample: the claim fails: handling one request writes
session state that a later request with the same derived user id
observes. On an empty store, a first request for user "u" finds no session
(`get_session` returns `none`); run after that first request, the same
request finds the session the first one created — so the second request's
behaviour is not as if the first had never been handled. -/
theorem shared_session_state_observable :
    (LocalLLM.execute exCtxU emptyStore (.events [])).session_found = some none ∧
    (LocalLLM.execute exCtxU
        (LocalLLM.execute exCtxU emptyStore (.events [])).store
        (.events [])).session_found =
      some (some ⟨"session-0", "local-llm-agent", "u"⟩) := by
  constructor <;> rfl

/-- C7 amended: the events an executor emits are independent of the
session store (so the event stream of a second request matches a fresh
one), and requests whose derived user ids differ do not observe each
other's session entries; but the session store itself is shared, so a
request with the same derived user id does observe sessions written by an
earlier request (refuted concretely by the counterexample). -/
theorem request_independence_split :
    (∀ (ctx : RequestContext) (st₁ st₂ : SessionStore) (run : RunOutcome),
      (LocalLLM.execute ctx st₁ run).emitted =
        (LocalLLM.execute ctx st₂ run).emitted) ∧
    (∀ (ctx₁ ctx₂ : RequestContext) (store : SessionStore) (run₁ run₂ : RunOutcome),
      pyStrOr ctx₂.context_id "default-user" ≠
        pyStrOr ctx₁.context_id "default-user" →
      (LocalLLM.execute ctx₂ (LocalLLM.execute ctx₁ store run₁).store
          run₂).session_found =
        (LocalLLM.execute ctx₂ store run₂).session_found) := by
  refine ⟨execute_emitted_indep, ?_⟩
  intro ctx₁ ctx₂ store run₁ run₂ h
  obtain ⟨tid₂, cid₂, msg₂⟩ := ctx₂
  cases msg₂ with
  | none => rfl
  | some m =>
    obtain ⟨parts⟩ := m
    cases parts with
    | nil => rfl
    | cons p rest =>
      rw [execute_session_found ⟨tid₂, cid₂, some ⟨p :: rest⟩⟩ _ run₂
          ⟨p :: rest⟩ p rest rfl rfl,
        execute_session_found ⟨tid₂, cid₂, some ⟨p :: rest⟩⟩ store run₂
          ⟨p :: rest⟩ p rest rfl rfl,
        execute_store_get_ne ctx₁ store run₁ _ h]

/-- C7-amended witness: the two independence parts at concrete requests:
the emitted events of a request do not change between an empty store and a
populated one, and a request for user "other" finds the same (absent)
session whether or not a request for user "u" ran first. -/
theorem request_independence_split_witness :
    (LocalLLM.execute exCtxU emptyStore (.events [])).emitted =
      (LocalLLM.execute exCtxU
        ⟨[(("local-llm-agent", "u"), ⟨"s9", "local-llm-agent", "u"⟩)], 3⟩
        (.events [])).emitted ∧
    (LocalLLM.execute ⟨some "task-2", some "other", some ⟨[⟨"yo"⟩]⟩⟩
        (LocalLLM.execute exCtxU emptyStore (.events [])).store
        (.events [])).session_found =
      (LocalLLM.execute ⟨some "task-2", some "other", some ⟨[⟨"yo"⟩]⟩⟩ emptyStore
        (.events [])).session_found :=
  ⟨request_independence_split.1 exCtxU emptyStore
      ⟨[(("local-llm-agent", "u"), ⟨"s9", "local-llm-agent", "u"⟩)], 3⟩ (.events []),
   request_independence_split.2 exCtxU ⟨some "task-2", some "other", some ⟨[⟨"yo"⟩]⟩⟩
      emptyStore (.events []) (.events []) (by decide)⟩

/-- C8: a request whose message is absent or has an empty parts list makes
`execute` (of either executor) return immediately: no event is emitted, no
agent run is started, no exception escapes, and the session store is left
exactly as it was. -/
theorem empty_message_noop
    (ctx : RequestContext) (store : SessionStore) (run : RunOutcome)
    (out : LangChainA2A.InvokeOutcome)
    (h : ctx.message = none ∨ ∃ m, ctx.message = some m ∧ m.parts = []) :
    LocalLLM.execute ctx store run = ⟨[], store, none, [], none⟩ ∧
    LangChainA2A.execute ctx out = [] := by
  obtain ⟨tid, cid, msg⟩ := ctx
  rcases h with h | ⟨m, hm, hp⟩
  · simp only at h
    subst h
    exact ⟨rfl, rfl⟩
  · obtain ⟨parts⟩ := m
    simp only at hm hp
    subst hm
    subst hp
    exact ⟨rfl, rfl⟩

/-- C8 witness: the no-op behaviour at a request without a message and at
a request whose message has no parts. -/
theorem empty_message_noop_witness :
    (LocalLLM.execute ⟨some "task-1", some "ctx-1", none⟩ emptyStore (.events []) =
        ⟨[], emptyStore, none, [], none⟩ ∧
      LangChainA2A.execute ⟨some "task-1", some "ctx-1", none⟩ (.ok "x") = []) ∧
    (LocalLLM.execute ⟨some "task-1", some "ctx-1", some ⟨[]⟩⟩ emptyStore
        (.events []) = ⟨[], emptyStore, none, [], none⟩ ∧
      LangChainA2A.execute ⟨some "task-1", some "ctx-1", some ⟨[]⟩⟩ (.ok "x") = []) :=
  ⟨empty_message_noop ⟨some "task-1", some "ctx-1", none⟩ emptyStore (.events [])
      (.ok "x") (Or.inl rfl),
   empty_message_noop ⟨some "task-1", some "ctx-1", some ⟨[]⟩⟩ emptyStore (.events [])
      (.ok "x") (Or.inr ⟨⟨[]⟩, rfl, rfl⟩)⟩

/-- C9: the two translation dictionaries are mutual inverses — both
round-trips restore every dictionary word — and on any string outside the
respective dictionary the translator returns its bracketed placeholder
containing the input. -/
theorem translate_roundtrip_and_placeholder :
    (translate_to_japanese (translate_to_english "こんにちは") = "こんにちは" ∧
     translate_to_japanese (translate_to_english "ありがとう") = "ありがとう" ∧
     translate_to_japanese (translate_to_english "さようなら") = "さようなら") ∧
    (translate_to_english (translate_to_japanese "Hello") = "Hello" ∧
     translate_to_english (translate_to_japanese "Thank you") = "Thank you" ∧
     translate_to_english (translate_to_japanese "Goodbye") = "Goodbye") ∧
    (∀ s : String, s ∉ jaToEn.map Prod.fst →
      translate_to_english s = "[Translation of: " ++ s ++ "]") ∧
    (∀ s : String, s ∉ enToJa.map Prod.fst →
      translate_to_japanese s = "[翻訳: " ++ s ++ "]") := by
  refine ⟨by decide, by decide, ?_, ?_⟩
  · intro s hs
    simp [jaToEn, List.map] at hs
    obtain ⟨h1, h2, h3⟩ := hs
    have b1 : (s == "こんにちは") = false := beq_eq_false_iff_ne.mpr h1
    have b2 : (s == "ありがとう") = false := beq_eq_false_iff_ne.mpr h2
    have b3 : (s == "さようなら") = false := beq_eq_false_iff_ne.mpr h3
    simp [translate_to_english, jaToEn, List.lookup, b1, b2, b3]
  · intro s hs
    simp [enToJa, List.map] at hs
    obtain ⟨h1, h2, h3⟩ := hs
    have b1 : (s == "Hello") = false := beq_eq_false_iff_ne.mpr h1
    have b2 : (s == "Thank you") = false := beq_eq_false_iff_ne.mpr h2
    have b3 : (s == "Goodbye") = false := beq_eq_false_iff_ne.mpr h3
    simp [translate_to_japanese, enToJa, List.lookup, b1, b2, b3]

/-- C9 witness: a round-trip on a dictionary word, and the placeholders on
the out-of-dictionary input "Lean". -/
theorem translate_roundtrip_witness :
    translate_to_japanese (translate_to_english "こんにちは") = "こんにちは" ∧
    translate_to_english "Lean" = "[Translation of: " ++ "Lean" ++ "]" ∧
    translate_to_japanese "Lean" = "[翻訳: " ++ "Lean" ++ "]" :=
  ⟨translate_roundtrip_and_placeholder.1.1,
   translate_roundtrip_and_placeholder.2.2.1 "Lean" (by decide),
   translate_roundtrip_and_placeholder.2.2.2 "Lean" (by decide)⟩

/-- C10: `calculate` is total at its interface: whatever the evaluation
outcome — success, division by zero, a syntax error, or any other
exception — it returns one of its four result strings; every exception
class is caught and mapped to an error message. -/
theorem calculate_total (expression : String) (outcome : PyEvalOutcome) :
    (∃ v, outcome = .ok v ∧
      calculate expression outcome = expression ++ " = " ++ v) ∨
    calculate expression outcome = "エラー: ゼロ除算はできません" ∨
    calculate expression outcome =
      "エラー: 数式の構文が正しくありません: " ++ expression ∨
    (∃ e, outcome = .otherError e ∧
      calculate expression outcome = "計算エラー: " ++ e) := by
  cases outcome with
  | ok v => exact Or.inl ⟨v, rfl, rfl⟩
  | zeroDivisionError => exact Or.inr (Or.inl rfl)
  | syntaxError => exact Or.inr (Or.inr (Or.inl rfl))
  | otherError e => exact Or.inr (Or.inr (Or.inr ⟨e, rfl, rfl⟩))

end AdkSample
